import Mathlib

/-!
Verification of the Lyra popup core (src/popup.js): settings resolution
(getDomain, getEffectiveGain, the save/clear domain-override handlers) and
the per-element audio graph controller (applySettings).

JS numbers are modelled as rationals (the properties at stake depend only on
field algebra and on comparison with 0, never on floating-point rounding),
JS objects mapping domain strings to gains as association lists with unique
keys, and the Web Audio node graph as an explicit record of node parameters
plus connection lists, with the Web Audio rule that a repeated connect
between the same endpoints is a no-op.
-/

namespace Lyra

/-- GlobalSettings from popup.js: a global gain plus per-domain overrides
(a JS object, modelled as an association list keyed by domain). -/
structure GlobalSettings where
  globalGain : ℚ
  domainOverrides : List (String × ℚ)
deriving Repr, DecidableEq

/-- Association-list lookup, modelling JS property read
globalSettings.domainOverrides[domain] (undefined becomes none). -/
def lookupOverride (domain : String) : List (String × ℚ) → Option ℚ
  | [] => none
  | (k, v) :: rest => if k = domain then some v else lookupOverride domain rest

/-- JS numeric short-circuit x || y: yields y when x is undefined (none)
or 0 (the only falsy rational); otherwise yields x. -/
def jsOrNum (x : Option ℚ) (y : ℚ) : ℚ :=
  match x with
  | some v => if v = 0 then y else v
  | none => y

/-- getEffectiveGain from popup.js, line 95:
globalSettings.domainOverrides[domain] || globalSettings.globalGain.
The domain and settings are explicit arguments (the source reads them from
module-level state). -/
def effectiveGain (domain : String) (gs : GlobalSettings) : ℚ :=
  jsOrNum (lookupOverride domain gs.domainOverrides) gs.globalGain

/-- getDomain from popup.js, lines 81-87: new URL(url).hostname with the
catch branch returning "unknown". The browser URL parser is external to the
repository, so it is abstracted as a function returning some hostname on
success and none on a parse failure (the thrown exception). -/
def getDomain (parseHost : String → Option String) (url : String) : String :=
  match parseHost url with
  | some h => h
  | none => "unknown"

/-- JS property assignment obj[domain] = v on the overrides object:
overwrite the existing entry or append a fresh one. -/
def setKey (domain : String) (v : ℚ) : List (String × ℚ) → List (String × ℚ)
  | [] => [(domain, v)]
  | (k, w) :: rest =>
      if k = domain then (k, v) :: rest else (k, w) :: setKey domain v rest

/-- JS delete obj[domain] on the overrides object: drop every entry with
that key (a no-op when the key is absent). -/
def removeKey (domain : String) : List (String × ℚ) → List (String × ℚ)
  | [] => []
  | (k, w) :: rest =>
      if k = domain then removeKey domain rest else (k, w) :: removeKey domain rest

/-- The save-domain-override click handler, popup.js lines 232-239:
globalSettings.domainOverrides[domain] = gainValue. -/
def saveOverride (domain : String) (v : ℚ) (gs : GlobalSettings) : GlobalSettings :=
  { gs with domainOverrides := setKey domain v gs.domainOverrides }

/-- The clear-domain-override click handler, popup.js lines 242-250:
delete globalSettings.domainOverrides[domain]. -/
def clearOverride (domain : String) (gs : GlobalSettings) : GlobalSettings :=
  { gs with domainOverrides := removeKey domain gs.domainOverrides }

/-- Targets a Web Audio node output can be wired to in this graph. -/
inductive AudioDest where
  | splitter
  | merger
  | destination
deriving Repr, DecidableEq

/-- Web Audio connect on a node's outgoing-connection list: a second
connect between the same endpoints is ignored (one connection per pair of
termini, per the Web Audio specification). -/
def connect (conns : List AudioDest) (t : AudioDest) : List AudioDest :=
  if t ∈ conns then conns else conns ++ [t]

/-- Web Audio connect(dest, output, input) for the splitter-to-merger
edges, keyed by the (splitter output, merger input) pair; a duplicate
connect with the same pair is ignored. -/
def connectSM (conns : List (Nat × Nat)) (p : Nat × Nat) : List (Nat × Nat) :=
  if p ∈ conns then conns else conns ++ [p]

/-- The per-element audio graph built by applySettings, popup.js lines
136-147: gain node scalar, panner pan value, the context destination's
channelCount, the recorded original channel count, the element's
xSoundFixerFlipped property (undefined, hence Option, until a flip update
arrives), and the mutable outgoing connections of the panner, splitter and
merger. The static source-to-gain-to-panner wiring never changes and
carries no information, so it is not a field. -/
structure AudioGraph where
  gainValue : ℚ
  panValue : ℚ
  channelCount : Nat
  originalChannels : Nat
  flipped : Option Bool
  pannerConns : List AudioDest
  splitterToMerger : List (Nat × Nat)
  mergerConns : List AudioDest
deriving Repr, DecidableEq

/-- The init branch of applySettings, popup.js lines 136-147: a fresh gain
node has gain 1, a fresh panner pan 0, the panner is wired straight to the
destination, and the destination's channel count at that moment is recorded
as the original channel count. -/
def initGraph (destChannels : Nat) : AudioGraph :=
  { gainValue := 1
    panValue := 0
    channelCount := destChannels
    originalChannels := destChannels
    flipped := none
    pannerConns := [AudioDest.destination]
    splitterToMerger := []
    mergerConns := [] }

/-- A partial SoundSettings update: each field is present (some) or absent
(none), mirroring the 'field' in newSettings checks of popup.js. -/
structure SoundSettings where
  gain : Option ℚ
  pan : Option ℚ
  mono : Option Bool
  flip : Option Bool
deriving Repr, DecidableEq

/-- The gain branch, popup.js lines 149-151. -/
def applyGain (u : Option ℚ) (g : AudioGraph) : AudioGraph :=
  match u with
  | some v => { g with gainValue := v }
  | none => g

/-- The pan branch, popup.js lines 152-154. -/
def applyPan (u : Option ℚ) (g : AudioGraph) : AudioGraph :=
  match u with
  | some v => { g with panValue := v }
  | none => g

/-- The mono branch, popup.js lines 155-157: channelCount becomes 1 when
mono, else the recorded original channel count. -/
def applyMono (u : Option Bool) (g : AudioGraph) : AudioGraph :=
  match u with
  | some m => { g with channelCount := if m then 1 else g.originalChannels }
  | none => g

/-- The flip rewire, popup.js lines 158-170: record the flag, disconnect
all outgoing connections of the merger and the panner, then either route
panner to splitter, splitter output 0 to merger input 1 and output 1 to
input 0, merger to destination (flip), or panner straight to destination
(no flip). -/
def rewire (f : Bool) (g : AudioGraph) : AudioGraph :=
  let g0 := { g with flipped := some f, mergerConns := [], pannerConns := ([] : List AudioDest) }
  if f then
    { g0 with
        pannerConns := connect g0.pannerConns AudioDest.splitter
        splitterToMerger := connectSM (connectSM g0.splitterToMerger (0, 1)) (1, 0)
        mergerConns := connect g0.mergerConns AudioDest.destination }
  else
    { g0 with pannerConns := connect g0.pannerConns AudioDest.destination }

/-- The flip branch guard, popup.js line 158. -/
def applyFlip (u : Option Bool) (g : AudioGraph) : AudioGraph :=
  match u with
  | some f => rewire f g
  | none => g

/-- The four field branches of applySettings in source order:
gain, pan, mono, flip (popup.js lines 149-170). -/
def applyFields (g : AudioGraph) (u : SoundSettings) : AudioGraph :=
  applyFlip u.flip (applyMono u.mono (applyPan u.pan (applyGain u.gain g)))

/-- The normalized snapshot written to el.xSoundFixerSettings, popup.js
lines 171-176; flip copies el.xSoundFixerFlipped, which may still be
undefined. -/
structure SettingsSnapshot where
  gain : ℚ
  pan : ℚ
  mono : Bool
  flip : Option Bool
deriving Repr, DecidableEq

/-- Reading the graph's actual current state back from the nodes, exactly
as popup.js lines 171-176 do: gain node scalar, panner pan value, whether
the destination channel count equals 1, and the flipped flag. -/
def readBack (g : AudioGraph) : SettingsSnapshot :=
  { gain := g.gainValue
    pan := g.panValue
    mono := g.channelCount == 1
    flip := g.flipped }

/-- Everything applySettings keeps on the element: the lazily built graph
(none before the first call, the guard being the presence of
el.xSoundFixerContext), the el.xSoundFixerSettings snapshot, and a ghost
counter of how many times the init block (popup.js lines 136-147) has
executed, used to state construct-exactly-once. -/
structure ElementState where
  graph : Option AudioGraph
  lastSettings : Option SettingsSnapshot
  initCount : Nat
deriving Repr, DecidableEq

/-- An element no apply call has touched yet: no graph, no snapshot. -/
def freshElement : ElementState :=
  { graph := none, lastSettings := none, initCount := 0 }

/-- applySettings, popup.js lines 131-179, as a state transformer on one
element: build the graph if absent (recording destChannels, the
destination's channel count, as the original), apply the present fields in
source order, then store the read-back snapshot. -/
def applySettings (destChannels : Nat) (e : ElementState) (u : SoundSettings) : ElementState :=
  let started : AudioGraph × Nat :=
    match e.graph with
    | some g => (g, e.initCount)
    | none => (initGraph destChannels, e.initCount + 1)
  let g1 := applyFields started.1 u
  { graph := some g1
    lastSettings := some
      { gain := g1.gainValue
        pan := g1.panValue
        mono := g1.channelCount == 1
        flip := g1.flipped }
    initCount := started.2 }

/-- A sequence of applySettings calls on one element. -/
def applyAll (destChannels : Nat) (e : ElementState) (us : List SoundSettings) : ElementState :=
  us.foldl (applySettings destChannels) e

/-- An update carrying only a gain. -/
def gainUpd (v : ℚ) : SoundSettings := ⟨some v, none, none, none⟩

/-- An update carrying only a pan. -/
def panUpd (v : ℚ) : SoundSettings := ⟨none, some v, none, none⟩

/-- An update carrying only a mono flag. -/
def monoUpd (m : Bool) : SoundSettings := ⟨none, none, some m, none⟩

/-- An update carrying only a flip flag. -/
def flipUpd (f : Bool) : SoundSettings := ⟨none, none, none, some f⟩

/-- States an element can actually be in: freshElement transformed by some
sequence of applySettings calls. -/
def reachable (destChannels : Nat) (e : ElementState) : Prop :=
  ∃ us : List SoundSettings, e = applyAll destChannels freshElement us

end Lyra

namespace Lyra

theorem lookupOverride_removeKey (domain : String) (l : List (String × ℚ)) :
    lookupOverride domain (removeKey domain l) = none := by
  induction l with
  | nil => rfl
  | cons p rest ih =>
      obtain ⟨k, v⟩ := p
      by_cases hk : k = domain
      · simp [removeKey, hk, ih]
      · simp [removeKey, lookupOverride, hk, ih]

theorem removeKey_of_absent (domain : String) (l : List (String × ℚ))
    (h : lookupOverride domain l = none) : removeKey domain l = l := by
  induction l with
  | nil => rfl
  | cons p rest ih =>
      obtain ⟨k, v⟩ := p
      by_cases hk : k = domain
      · simp [lookupOverride, hk] at h
      · simp [lookupOverride, hk] at h
        simp [removeKey, hk, ih h]

/-- C1 counterexample: "example.com" is a key of domainOverrides with
stored value 0, yet effective-gain resolution returns globalGain = 2 and
not the stored 0, because the source uses the JS falsy-or
(override || globalGain). -/
theorem effectiveGain_zero_override_counterexample :
    lookupOverride "example.com" [("example.com", (0 : ℚ))] = some 0 ∧
    effectiveGain "example.com" ⟨2, [("example.com", 0)]⟩ = 2 ∧ (2 : ℚ) ≠ 0 := by
  decide

/-- C1 (amended): effective-gain resolution returns the stored override
whenever the domain is a key of domainOverrides and the stored value is
nonzero; it returns globalGain when the stored value is 0 (JS falsy) and
when the domain is not a key. -/
theorem effectiveGain_resolution (domain : String) (gs : GlobalSettings) (v : ℚ) :
    (lookupOverride domain gs.domainOverrides = some v → v ≠ 0 →
        effectiveGain domain gs = v) ∧
    (lookupOverride domain gs.domainOverrides = some 0 →
        effectiveGain domain gs = gs.globalGain) ∧
    (lookupOverride domain gs.domainOverrides = none →
        effectiveGain domain gs = gs.globalGain) := by
  refine ⟨fun h hv => ?_, fun h => ?_, fun h => ?_⟩
  · simp [effectiveGain, h, jsOrNum, hv]
  · simp [effectiveGain, h, jsOrNum]
  · simp [effectiveGain, h, jsOrNum]

/-- C1 amended-claim witness at a concrete override table. -/
theorem effectiveGain_resolution_witness :
    effectiveGain "a" ⟨2, [("a", 3)]⟩ = 3 ∧
    effectiveGain "b" ⟨2, [("a", 3)]⟩ = 2 := by
  have h := effectiveGain_resolution "a" ⟨2, [("a", 3)]⟩ 3
  have h2 := effectiveGain_resolution "b" ⟨2, [("a", 3)]⟩ 3
  exact ⟨h.1 (by decide) (by norm_num), h2.2.2 (by decide)⟩

/-- C7: saving a domain override and then clearing the override for the
same domain returns the effective gain for that domain to globalGain; and
clearing an override that is absent is a no-op, not an error. -/
theorem saveOverride_clearOverride_roundtrip (domain : String) (v : ℚ)
    (gs : GlobalSettings) :
    effectiveGain domain (clearOverride domain (saveOverride domain v gs)) =
      gs.globalGain ∧
    (lookupOverride domain gs.domainOverrides = none →
        clearOverride domain gs = gs) := by
  constructor
  · simp [effectiveGain, clearOverride, saveOverride, lookupOverride_removeKey, jsOrNum]
  · intro h
    cases gs with
    | mk gg ov => simp [clearOverride, removeKey_of_absent domain ov h]

/-- C7 witness at a concrete domain and settings record. -/
theorem saveOverride_clearOverride_roundtrip_witness :
    effectiveGain "a" (clearOverride "a" (saveOverride "a" 2 ⟨1, []⟩)) = 1 ∧
    clearOverride "a" ⟨1, []⟩ = (⟨1, []⟩ : GlobalSettings) := by
  have h := saveOverride_clearOverride_roundtrip "a" 2 ⟨1, []⟩
  exact ⟨h.1, h.2 rfl⟩

/-- C8 counterexample: on an unparseable URL the domain is the sentinel
"unknown", but nothing prevents an override stored under the key "unknown":
with domainOverrides = [("unknown", 2)] and globalGain = 1, effective-gain
resolution on the unparseable URL returns 2, not globalGain, so the
sentinel can match a stored override. -/
theorem unknown_sentinel_counterexample :
    getDomain (fun _ => none) "notaurl" = "unknown" ∧
    effectiveGain (getDomain (fun _ => none) "notaurl") ⟨1, [("unknown", 2)]⟩ = 2 ∧
    (2 : ℚ) ≠ 1 := by
  decide

/-- C8 (amended): for every input string the URL parser rejects, domain
extraction returns the sentinel "unknown" (a defined fallback, not an
error), and effective-gain resolution on such a URL returns globalGain
whenever "unknown" is not itself a key of domainOverrides. -/
theorem getDomain_sentinel (parseHost : String → Option String) (url : String)
    (gs : GlobalSettings) (h : parseHost url = none) :
    getDomain parseHost url = "unknown" ∧
    (lookupOverride "unknown" gs.domainOverrides = none →
        effectiveGain (getDomain parseHost url) gs = gs.globalGain) := by
  have hd : getDomain parseHost url = "unknown" := by simp [getDomain, h]
  refine ⟨hd, fun hl => ?_⟩
  rw [hd]
  simp [effectiveGain, hl, jsOrNum]

/-- C8 amended-claim witness at a concrete rejecting parser and URL. -/
theorem getDomain_sentinel_witness :
    getDomain (fun _ => none) "x" = "unknown" ∧
    effectiveGain (getDomain (fun _ => none) "x") ⟨1, []⟩ = 1 := by
  have h := getDomain_sentinel (fun _ => none) "x" ⟨1, []⟩ rfl
  exact ⟨h.1, h.2 rfl⟩

end Lyra

namespace Lyra

@[simp] theorem applyGain_none (g : AudioGraph) : applyGain none g = g := rfl

@[simp] theorem applyGain_some (v : ℚ) (g : AudioGraph) :
    applyGain (some v) g = { g with gainValue := v } := rfl

@[simp] theorem applyPan_none (g : AudioGraph) : applyPan none g = g := rfl

@[simp] theorem applyPan_some (v : ℚ) (g : AudioGraph) :
    applyPan (some v) g = { g with panValue := v } := rfl

@[simp] theorem applyMono_none (g : AudioGraph) : applyMono none g = g := rfl

@[simp] theorem applyMono_some (m : Bool) (g : AudioGraph) :
    applyMono (some m) g =
      { g with channelCount := if m then 1 else g.originalChannels } := rfl

@[simp] theorem applyFlip_none (g : AudioGraph) : applyFlip none g = g := rfl

@[simp] theorem applyFlip_some (f : Bool) (g : AudioGraph) :
    applyFlip (some f) g = rewire f g := rfl

@[simp] theorem rewire_gainValue (f : Bool) (g : AudioGraph) :
    (rewire f g).gainValue = g.gainValue := by cases f <;> rfl

@[simp] theorem rewire_panValue (f : Bool) (g : AudioGraph) :
    (rewire f g).panValue = g.panValue := by cases f <;> rfl

@[simp] theorem rewire_channelCount (f : Bool) (g : AudioGraph) :
    (rewire f g).channelCount = g.channelCount := by cases f <;> rfl

@[simp] theorem rewire_originalChannels (f : Bool) (g : AudioGraph) :
    (rewire f g).originalChannels = g.originalChannels := by cases f <;> rfl

@[simp] theorem rewire_flipped (f : Bool) (g : AudioGraph) :
    (rewire f g).flipped = some f := by cases f <;> rfl

@[simp] theorem rewire_pannerConns (f : Bool) (g : AudioGraph) :
    (rewire f g).pannerConns =
      if f then [AudioDest.splitter] else [AudioDest.destination] := by
  cases f <;> rfl

@[simp] theorem rewire_mergerConns (f : Bool) (g : AudioGraph) :
    (rewire f g).mergerConns = if f then [AudioDest.destination] else [] := by
  cases f <;> rfl

@[simp] theorem rewire_splitterToMerger (f : Bool) (g : AudioGraph) :
    (rewire f g).splitterToMerger =
      if f then connectSM (connectSM g.splitterToMerger (0, 1)) (1, 0)
      else g.splitterToMerger := by
  cases f <;> rfl

theorem connectSM_self_mem (l : List (Nat × Nat)) (p : Nat × Nat) :
    p ∈ connectSM l p := by
  by_cases h : p ∈ l <;> simp [connectSM, h]

theorem connectSM_mono (l : List (Nat × Nat)) (p q : Nat × Nat) (h : p ∈ l) :
    p ∈ connectSM l q := by
  by_cases hq : q ∈ l <;> simp [connectSM, hq, h]

theorem connectSM_of_mem (l : List (Nat × Nat)) (p : Nat × Nat) (h : p ∈ l) :
    connectSM l p = l := by
  simp [connectSM, h]

theorem connectSM_pair_idem (l : List (Nat × Nat)) :
    connectSM (connectSM (connectSM (connectSM l (0, 1)) (1, 0)) (0, 1)) (1, 0) =
      connectSM (connectSM l (0, 1)) (1, 0) := by
  have h01 : (0, 1) ∈ connectSM (connectSM l (0, 1)) (1, 0) :=
    connectSM_mono _ _ _ (connectSM_self_mem l (0, 1))
  have h10 : (1, 0) ∈ connectSM (connectSM l (0, 1)) (1, 0) :=
    connectSM_self_mem _ _
  rw [connectSM_of_mem _ _ h01, connectSM_of_mem _ _ h10]

theorem rewire_true_idem (g : AudioGraph) :
    rewire true (rewire true g) = rewire true g := by
  simp [rewire, connect, connectSM_pair_idem]

end Lyra

namespace Lyra

/-- C2 counterexample: applying {flip:true} twice to a freshly initialized
element leaves the flipped routing (panner wired to the splitter, merger
wired to the destination), not the unflipped panner-to-destination routing
the claim promises, because the flip field is an absolute assignment
(el.xSoundFixerFlipped = newSettings.flip), not a toggle. -/
theorem flip_twice_counterexample :
    (applyAll 2 freshElement [flipUpd true, flipUpd true]).graph.map
        AudioGraph.pannerConns = some [AudioDest.splitter] ∧
    (applyAll 2 freshElement [flipUpd true, flipUpd true]).graph.map
        AudioGraph.mergerConns = some [AudioDest.destination] ∧
    some [AudioDest.splitter] ≠ some [AudioDest.destination] := by
  decide

/-- C2 (amended): flip is an absolute setting, not a toggle: a second
{flip:true} is a no-op on the whole element state, leaving exactly the
state one {flip:true} produces (routing stays flipped), and it is
{flip:false} that restores the direct panner-to-destination routing with
the merger disconnected. -/
theorem flip_absolute (d : Nat) (e : ElementState) :
    applySettings d (applySettings d e (flipUpd true)) (flipUpd true) =
      applySettings d e (flipUpd true) ∧
    (applySettings d e (flipUpd false)).graph.map AudioGraph.pannerConns =
      some [AudioDest.destination] ∧
    (applySettings d e (flipUpd false)).graph.map AudioGraph.mergerConns =
      some [] := by
  refine ⟨?_, ?_, ?_⟩
  · cases hg : e.graph <;>
      simp [applySettings, hg, applyFields, flipUpd, rewire_true_idem]
  · cases hg : e.graph <;> simp [applySettings, hg, applyFields, flipUpd]
  · cases hg : e.graph <;> simp [applySettings, hg, applyFields, flipUpd]

/-- Initialization established and kept: after the init block has run with
destination channel count d, the init counter stays 1 and the recorded
original channel count stays d. -/
def initializedAt (d : Nat) (e : ElementState) : Prop :=
  e.initCount = 1 ∧ ∃ g, e.graph = some g ∧ g.originalChannels = d

theorem applySettings_initialized (d : Nat) (e : ElementState) (g : AudioGraph)
    (h : e.graph = some g) (u : SoundSettings) :
    (applySettings d e u).graph = some (applyFields g u) ∧
    (applySettings d e u).initCount = e.initCount := by
  simp [applySettings, h]

theorem applyFields_originalChannels (g : AudioGraph) (u : SoundSettings) :
    (applyFields g u).originalChannels = g.originalChannels := by
  obtain ⟨og, op, om, of⟩ := u
  rcases og with _ | v <;> rcases op with _ | p <;> rcases om with _ | m <;>
    rcases of with _ | f <;> simp [applyFields]

theorem applySettings_keeps_initializedAt (d : Nat) (e : ElementState)
    (u : SoundSettings) (h : initializedAt d e) :
    initializedAt d (applySettings d e u) := by
  obtain ⟨hc, g, hg, ho⟩ := h
  refine ⟨?_, applyFields g u, (applySettings_initialized d e g hg u).1, ?_⟩
  · rw [(applySettings_initialized d e g hg u).2, hc]
  · rw [applyFields_originalChannels, ho]

theorem applyAll_keeps_initializedAt (d : Nat) (us : List SoundSettings)
    (e : ElementState) (h : initializedAt d e) :
    initializedAt d (applyAll d e us) := by
  induction us generalizing e with
  | nil => exact h
  | cons u rest ih => exact ih _ (applySettings_keeps_initializedAt d e u h)

theorem applySettings_fresh_initializedAt (d : Nat) (u : SoundSettings) :
    initializedAt d (applySettings d freshElement u) := by
  refine ⟨rfl, applyFields (initGraph d) u, rfl, ?_⟩
  rw [applyFields_originalChannels]
  rfl

/-- C3: over any nonempty sequence of apply calls on a fresh element, the
init block (audio context, gain node, panner, splitter, merger, source
construction) runs exactly once, on the first call: the guard makes every
later call skip construction, and the recorded original channel count
remains the destination channel count observed at initialization. -/
theorem init_idempotent (d : Nat) (us : List SoundSettings) (h : us ≠ []) :
    (applyAll d freshElement us).initCount = 1 ∧
    (applyAll d freshElement us).graph.map AudioGraph.originalChannels = some d := by
  cases us with
  | nil => exact absurd rfl h
  | cons u rest =>
      have h1 : initializedAt d (applyAll d (applySettings d freshElement u) rest) :=
        applyAll_keeps_initializedAt d rest _ (applySettings_fresh_initializedAt d u)
      obtain ⟨hc, g, hg, ho⟩ := h1
      exact ⟨hc, by rw [show applyAll d freshElement (u :: rest) =
        applyAll d (applySettings d freshElement u) rest from rfl, hg]; simp [ho]⟩

/-- C3 witness: two concrete apply calls on a fresh element. -/
theorem init_idempotent_witness :
    (applyAll 2 freshElement [gainUpd 1, monoUpd true]).initCount = 1 ∧
    (applyAll 2 freshElement [gainUpd 1, monoUpd true]).graph.map
      AudioGraph.originalChannels = some 2 :=
  init_idempotent 2 [gainUpd 1, monoUpd true] (by decide)

end Lyra

namespace Lyra

theorem connectSM_cross (sm : List (Nat × Nat))
    (h : sm = [] ∨ sm = [(0, 1), (1, 0)]) :
    connectSM (connectSM sm (0, 1)) (1, 0) = [(0, 1), (1, 0)] := by
  rcases h with h | h <;> subst h <;> decide

/-- Invariant of every reachable element state: the splitter-to-merger
edge list is either still empty or exactly the two crossed edges; the only
code that ever touches it is the flip-true rewire, whose connects are
idempotent. -/
def smInv (e : ElementState) : Prop :=
  ∀ g, e.graph = some g →
    g.splitterToMerger = [] ∨ g.splitterToMerger = [(0, 1), (1, 0)]

theorem applyFields_smInv (g : AudioGraph)
    (h : g.splitterToMerger = [] ∨ g.splitterToMerger = [(0, 1), (1, 0)])
    (u : SoundSettings) :
    (applyFields g u).splitterToMerger = [] ∨
      (applyFields g u).splitterToMerger = [(0, 1), (1, 0)] := by
  obtain ⟨og, op, om, of⟩ := u
  rcases of with _ | f
  · rcases og with _ | v <;> rcases op with _ | p <;> rcases om with _ | m <;>
      simpa [applyFields] using h
  · cases f
    · rcases og with _ | v <;> rcases op with _ | p <;> rcases om with _ | m <;>
        simpa [applyFields] using h
    · rcases og with _ | v <;> rcases op with _ | p <;> rcases om with _ | m <;>
        simp [applyFields, connectSM_cross _ h]

theorem smInv_applySettings (d : Nat) (e : ElementState) (u : SoundSettings)
    (h : smInv e) : smInv (applySettings d e u) := by
  intro g1 hg1
  cases hg : e.graph with
  | none =>
      have hgr : (applySettings d e u).graph = some (applyFields (initGraph d) u) := by
        simp [applySettings, hg]
      rw [hgr] at hg1
      injection hg1 with hg1
      subst hg1
      exact applyFields_smInv _ (Or.inl rfl) u
  | some g =>
      rw [(applySettings_initialized d e g hg u).1] at hg1
      injection hg1 with hg1
      subst hg1
      exact applyFields_smInv _ (h g hg) u

theorem smInv_reachable (d : Nat) (e : ElementState) (h : reachable d e) :
    smInv e := by
  obtain ⟨us, rfl⟩ := h
  induction us using List.reverseRecOn with
  | nil => exact fun g hgg => nomatch hgg
  | append_singleton rest u ih =>
      rw [show applyAll d freshElement (rest ++ [u]) =
        applySettings d (applyAll d freshElement rest) u from by
          simp [applyAll]]
      exact smInv_applySettings d _ u ih

/-- C4: applying a flip update to any reachable element state leaves, when
flip is true, exactly the crossed routing panner→splitter, splitter output
0→merger input 1 and output 1→input 0, merger→destination, and, when flip
is false, exactly the direct panner→destination routing with the merger
disconnected; the connection lists being exactly these singletons shows
the previous merger and panner routing was fully torn down first, with no
duplicate or leftover panner or merger connections. -/
theorem flip_routing (d : Nat) (e : ElementState) (b : Bool)
    (h : reachable d e) :
    ∃ g1, (applySettings d e (flipUpd b)).graph = some g1 ∧
      g1.pannerConns = (if b then [AudioDest.splitter] else [AudioDest.destination]) ∧
      g1.mergerConns = (if b then [AudioDest.destination] else []) ∧
      (b = true → g1.splitterToMerger = [(0, 1), (1, 0)]) := by
  have hsm := smInv_reachable d e h
  cases hg : e.graph with
  | none =>
      refine ⟨applyFields (initGraph d) (flipUpd b), by simp [applySettings, hg], ?_, ?_, ?_⟩
      · simp [applyFields, flipUpd]
      · simp [applyFields, flipUpd]
      · intro hb
        subst hb
        simp [applyFields, flipUpd, initGraph, connectSM_cross _ (Or.inl rfl)]
  | some g =>
      refine ⟨applyFields g (flipUpd b), (applySettings_initialized d e g hg _).1, ?_, ?_, ?_⟩
      · simp [applyFields, flipUpd]
      · simp [applyFields, flipUpd]
      · intro hb
        subst hb
        simp [applyFields, flipUpd, connectSM_cross _ (hsm g hg)]

/-- C4 witness: flip true on a fresh element (reachable by the empty call
sequence). -/
theorem flip_routing_witness :
    ∃ g1, (applySettings 2 freshElement (flipUpd true)).graph = some g1 ∧
      g1.pannerConns = (if true then [AudioDest.splitter] else [AudioDest.destination]) ∧
      g1.mergerConns = (if true then [AudioDest.destination] else []) ∧
      (true = true → g1.splitterToMerger = [(0, 1), (1, 0)]) :=
  flip_routing 2 freshElement true ⟨[], rfl⟩

end Lyra

namespace Lyra

/-- What C5 requires of one apply call on an initialized element whose
graph was g: every field present in the update is set to the given value
(gain scalar, pan value, channel count 1 or the recorded original, flip
routing and flag), and every graph property of an absent field is
unchanged; the recorded original channel count is preserved either way. -/
def updateSpec (g g1 : AudioGraph) (u : SoundSettings) : Prop :=
  g1.gainValue = (match u.gain with | some v => v | none => g.gainValue) ∧
  g1.panValue = (match u.pan with | some v => v | none => g.panValue) ∧
  g1.channelCount =
    (match u.mono with
     | some m => if m then 1 else g.originalChannels
     | none => g.channelCount) ∧
  g1.originalChannels = g.originalChannels ∧
  (match u.flip with
   | some f =>
       g1.flipped = some f ∧
       g1.pannerConns = (if f then [AudioDest.splitter] else [AudioDest.destination]) ∧
       g1.mergerConns = (if f then [AudioDest.destination] else [])
   | none =>
       g1.flipped = g.flipped ∧
       g1.pannerConns = g.pannerConns ∧
       g1.splitterToMerger = g.splitterToMerger ∧
       g1.mergerConns = g.mergerConns)

/-- C5: one apply call on an initialized element applies exactly the
fields present in the partial update and leaves every graph property of an
absent field unchanged. -/
theorem applySettings_partial_update (d : Nat) (e : ElementState)
    (g : AudioGraph) (h : e.graph = some g) (u : SoundSettings) :
    ∃ g1, (applySettings d e u).graph = some g1 ∧ updateSpec g g1 u := by
  refine ⟨applyFields g u, by simp [applySettings, h], ?_⟩
  obtain ⟨og, op, om, of⟩ := u
  rcases og with _ | v <;> rcases op with _ | p <;> rcases om with _ | m <;>
    rcases of with _ | f <;> simp [updateSpec, applyFields]

/-- C5 witness: a gain-and-mono update on a freshly initialized element. -/
theorem applySettings_partial_update_witness :
    ∃ g1, (applySettings 2 ⟨some (initGraph 2), none, 1⟩
        ⟨some 3, none, some true, none⟩).graph = some g1 ∧
      updateSpec (initGraph 2) g1 ⟨some 3, none, some true, none⟩ :=
  applySettings_partial_update 2 ⟨some (initGraph 2), none, 1⟩ (initGraph 2) rfl
    ⟨some 3, none, some true, none⟩

/-- C6: on an initialized element, applying {mono:true} and then
{mono:false} restores the channel count to exactly the original channel
count recorded at graph initialization. -/
theorem mono_roundtrip (d : Nat) (e : ElementState) (g : AudioGraph)
    (h : e.graph = some g) :
    (applyAll d e [monoUpd true, monoUpd false]).graph.map
      AudioGraph.channelCount = some g.originalChannels := by
  simp [applyAll, applySettings, h, applyFields, monoUpd]

/-- C6 witness: a freshly initialized two-channel element. -/
theorem mono_roundtrip_witness :
    (applyAll 2 ⟨some (initGraph 2), none, 1⟩ [monoUpd true, monoUpd false]).graph.map
      AudioGraph.channelCount = some (initGraph 2).originalChannels :=
  mono_roundtrip 2 ⟨some (initGraph 2), none, 1⟩ (initGraph 2) rfl

/-- C9: after every apply call, the stored last-known-settings snapshot
equals the read-back of the graph's actual current state (gain node
scalar, panner pan value, whether the channel count is 1, and the flipped
flag), not the raw values of the input update. -/
theorem snapshot_is_readback (d : Nat) (e : ElementState) (u : SoundSettings) :
    (applySettings d e u).lastSettings = (applySettings d e u).graph.map readBack := by
  cases hg : e.graph <;> simp [applySettings, hg, readBack]

end Lyra

namespace Lyra

theorem applyFields_flipped_none (g : AudioGraph) (u : SoundSettings)
    (hu : u.flip = none) (hg : g.flipped = none) :
    (applyFields g u).flipped = none := by
  obtain ⟨og, op, om, of⟩ := u
  cases hu
  rcases og with _ | v <;> rcases op with _ | p <;> rcases om with _ | m <;>
    simp [applyFields, hg]

/-- Invariant of an element none of whose apply calls carried the flip
field: the xSoundFixerFlipped property is still undefined, because it is
assigned only inside the flip branch. -/
def flipNeverSet (e : ElementState) : Prop :=
  ∀ g, e.graph = some g → g.flipped = none

theorem flipNeverSet_step (d : Nat) (e : ElementState) (u : SoundSettings)
    (hu : u.flip = none) (h : flipNeverSet e) :
    flipNeverSet (applySettings d e u) := by
  intro g1 hg1
  cases hg : e.graph with
  | none =>
      have hgr : (applySettings d e u).graph = some (applyFields (initGraph d) u) := by
        simp [applySettings, hg]
      rw [hgr] at hg1
      injection hg1 with hg1
      subst hg1
      exact applyFields_flipped_none _ _ hu rfl
  | some g =>
      rw [(applySettings_initialized d e g hg u).1] at hg1
      injection hg1 with hg1
      subst hg1
      exact applyFields_flipped_none _ _ hu (h g hg)

theorem flipNeverSet_applyAll (d : Nat) (us : List SoundSettings)
    (e : ElementState) (hu : ∀ u ∈ us, u.flip = none) (h : flipNeverSet e) :
    flipNeverSet (applyAll d e us) := by
  induction us generalizing e with
  | nil => exact h
  | cons u rest ih =>
      exact ih (applySettings d e u) (fun v hv => hu v (List.mem_cons_of_mem u hv))
        (flipNeverSet_step d e u (hu u (List.mem_cons_self u rest)) h)

theorem applySettings_graph_readback (d : Nat) (e : ElementState)
    (u : SoundSettings) :
    ∃ g1, (applySettings d e u).graph = some g1 ∧
      (applySettings d e u).lastSettings = some (readBack g1) := by
  cases hg : e.graph with
  | none =>
      refine ⟨applyFields (initGraph d) u, ?_, ?_⟩ <;>
        simp [applySettings, hg, readBack]
  | some g =>
      refine ⟨applyFields g u, ?_, ?_⟩ <;>
        simp [applySettings, hg, readBack]

theorem applyAll_last_readback (d : Nat) (us : List SoundSettings)
    (e : ElementState) (h : us ≠ []) :
    ∃ g1, (applyAll d e us).graph = some g1 ∧
      (applyAll d e us).lastSettings = some (readBack g1) := by
  induction us generalizing e with
  | nil => exact absurd rfl h
  | cons u rest ih =>
      cases rest with
      | nil => exact applySettings_graph_readback d e u
      | cons v rs => exact ih (applySettings d e u) (by simp)

/-- C10: for an element none of whose apply calls ever carried the flip
field, the recorded last-known-settings snapshot has an undefined (none)
flip value rather than false, because xSoundFixerFlipped is assigned only
inside the flip branch; the snapshot's flip is then neither true nor
false. -/
theorem snapshot_flip_undefined (d : Nat) (us : List SoundSettings)
    (hu : ∀ u ∈ us, u.flip = none) (h : us ≠ []) :
    ∃ snap, (applyAll d freshElement us).lastSettings = some snap ∧
      snap.flip = none := by
  obtain ⟨g1, hg1, hs⟩ := applyAll_last_readback d us freshElement h
  have hf : flipNeverSet (applyAll d freshElement us) :=
    flipNeverSet_applyAll d us freshElement hu (fun g hgg => nomatch hgg)
  exact ⟨readBack g1, hs, by simp [readBack, hf g1 hg1]⟩

/-- C10 witness: two flip-free apply calls on a fresh element. -/
theorem snapshot_flip_undefined_witness :
    ∃ snap, (applyAll 2 freshElement [gainUpd 2, monoUpd true]).lastSettings =
        some snap ∧ snap.flip = none :=
  snapshot_flip_undefined 2 [gainUpd 2, monoUpd true] (by decide) (by decide)

end Lyra
